import Mathlib

/-!
Shallow embedding of the Sphyre / Fortro-Engine credential registry core
(the Solidity contracts `AccessControl.sol`, `CredentialRegistry.sol`,
`SchemaRegistry.sol`, `ConsentRegistry.sol`, `SSIRegistry.sol`,
`SSIRegistryFactory.sol`), together with an abstract model of the
post-quantum crypto module described by the design document.

Conventions of the embedding:
* `Address` is `Nat`; the Solidity zero address `address(0)` is `0`.
* Role identifiers (`bytes32` keccak constants in the source) are `Nat`;
  `VERIFIER_ROLE` and `ISSUER_ROLE` are distinct constants.
* The `bytes32` keys derived with `keccak256(abi.encodePacked(...))` are
  modelled as the tuples of their preimages (collision-freeness of the
  hash is assumed, as usual for a shallow embedding).
* `block.timestamp` is passed as an explicit `now : Nat` argument.
* `msg.sender` is passed as an explicit `sender : Address` argument.
* A reverting call is an `Except.error` carrying the revert reason;
  each distinct revert string of the source gets its own constructor.
* Solidity mapping defaults (zero-initialised structs) are the `empty*`
  records below.
-/

abbrev Address : Type := Nat

abbrev RoleId : Type := Nat

def VERIFIER_ROLE : RoleId := 0

def ISSUER_ROLE : RoleId := 1

/-- Revert reasons of the contracts, one constructor per distinct
`require` message in the source. -/
inductive LedgerError : Type where
  | missingRole        -- "AccessControl: missing role"
  | notOwner           -- "AccessControl: not owner"
  | zeroAddress        -- "AccessControl: zero address"
  | invalidInput       -- "Empty DID" / "Empty hash" / "Empty schema ID" / "Empty schema URI" / "Empty user DID" / "Empty verifier DID" / "Empty purpose"
  | unauthorized       -- "Unauthorized"
  | notFound           -- "Not registered" / "Schema not found" / "Consent not found"
  | alreadyRegistered  -- "Already registered"
  | alreadyRevoked     -- "Already revoked"
  | outOfBounds        -- "Index out of bounds"
deriving DecidableEq, Repr, Inhabited

/-- Pointwise update of a mapping, the model of a Solidity storage write. -/
def setMap {κ α : Type} [DecidableEq κ] (m : κ → α) (k : κ) (v : α) : κ → α :=
  fun x => if x = k then v else m x

/-- Credential struct of `CredentialRegistry.sol`. -/
structure Credential : Type where
  isRegistered : Bool
  isRevoked : Bool
  registeredAt : Nat
  revokedAt : Nat
  registeredBy : Address
  revokedBy : Address
  metadataURI : String
deriving DecidableEq, Repr

def emptyCredential : Credential :=
  { isRegistered := false, isRevoked := false, registeredAt := 0, revokedAt := 0,
    registeredBy := 0, revokedBy := 0, metadataURI := "" }

/-- Schema struct of `SchemaRegistry.sol`. -/
structure Schema : Type where
  schemaURI : String
  isRegistered : Bool
  registeredAt : Nat
  updatedAt : Nat
  registeredBy : Address
  updatedBy : Address
  version : Nat
deriving DecidableEq, Repr

def emptySchema : Schema :=
  { schemaURI := "", isRegistered := false, registeredAt := 0, updatedAt := 0,
    registeredBy := 0, updatedBy := 0, version := 0 }

/-- AccessLevel enum of `ConsentRegistry.sol`. -/
inductive AccessLevel : Type where
  | readOnly
  | readWrite
  | fullAccess
  | oneTime
deriving DecidableEq, Repr, Inhabited

/-- ConsentRecord struct of `ConsentRegistry.sol`. -/
structure ConsentRecord : Type where
  isRegistered : Bool
  isRevoked : Bool
  registeredAt : Nat
  revokedAt : Nat
  registeredBy : Address
  revokedBy : Address
  expiresAt : Nat
  purpose : String
  dataCategories : String
  accessLevel : AccessLevel
deriving DecidableEq, Repr

def emptyConsent : ConsentRecord :=
  { isRegistered := false, isRevoked := false, registeredAt := 0, revokedAt := 0,
    registeredBy := 0, revokedBy := 0, expiresAt := 0, purpose := "",
    dataCategories := "", accessLevel := .readOnly }

/-- Credential keys: `keccak256(abi.encodePacked(did, credentialHash))`
modelled by the preimage pair. -/
abbrev CredKey : Type := String × String

/-- Consent keys: `keccak256(abi.encodePacked(userDid, verifierDid, purpose))`
modelled by the preimage triple. -/
abbrev ConsentKey : Type := String × String × String

/-- Events emitted by the contracts. -/
inductive Event : Type where
  | roleGranted (role : RoleId) (account : Address) (sender : Address)
  | roleRevoked (role : RoleId) (account : Address) (sender : Address)
  | ownershipTransferred (previousOwner : Address) (newOwner : Address)
  | credentialRegistered (credentialId : CredKey) (did : String) (registeredBy : Address) (timestamp : Nat)
  | credentialRevoked (credentialId : CredKey) (did : String) (revokedBy : Address) (timestamp : Nat)
  | schemaRegistered (schemaId : String) (schemaURI : String) (registeredBy : Address) (timestamp : Nat)
  | schemaUpdated (schemaId : String) (schemaURI : String) (updatedBy : Address) (timestamp : Nat) (version : Nat)
  | consentGranted (userDid : String) (verifierDid : String) (purpose : String) (registeredBy : Address) (timestamp : Nat)
  | consentRevoked (userDid : String) (verifierDid : String) (purpose : String) (revokedBy : Address) (timestamp : Nat)
deriving DecidableEq, Repr

/-- The storage of one deployed `SSIRegistry` instance, which inherits
`AccessControl`, `CredentialRegistry`, `SchemaRegistry` and
`ConsentRegistry`, plus its metadata fields.  Emitted events are
accumulated newest-first in `events`. -/
structure RegistryState : Type where
  roles : RoleId → Address → Bool
  owner : Address
  credentials : CredKey → Credential
  schemas : String → Schema
  schemaIds : List String
  consents : ConsentKey → ConsentRecord
  name : String
  description : String
  events : List Event

instance : Inhabited RegistryState :=
  ⟨{ roles := fun _ _ => false, owner := 0, credentials := fun _ => emptyCredential,
     schemas := fun _ => emptySchema, schemaIds := [], consents := fun _ => emptyConsent,
     name := "", description := "", events := [] }⟩

/-! ### AccessControl -/

def hasRole (s : RegistryState) (role : RoleId) (account : Address) : Bool :=
  s.roles role account

/-- `_grantRole`: sets the role and emits `RoleGranted` only when the
account does not already hold it. -/
def grantRoleInternal (s : RegistryState) (sender : Address) (role : RoleId) (account : Address) : RegistryState :=
  if hasRole s role account then s
  else { s with roles := setMap2 s.roles role account true,
                events := Event.roleGranted role account sender :: s.events }
where
  setMap2 (m : RoleId → Address → Bool) (r : RoleId) (a : Address) (v : Bool) : RoleId → Address → Bool :=
    fun r' a' => if r' = r ∧ a' = a then v else m r' a'

/-- `_revokeRole`: clears the role and emits `RoleRevoked` only when the
account currently holds it. -/
def revokeRoleInternal (s : RegistryState) (sender : Address) (role : RoleId) (account : Address) : RegistryState :=
  if hasRole s role account then
    { s with roles := grantRoleInternal.setMap2 s.roles role account false,
             events := Event.roleRevoked role account sender :: s.events }
  else s

/-- Public `grantRole`, guarded by `onlyRole(VERIFIER_ROLE)`. -/
def grantRole (s : RegistryState) (sender : Address) (role : RoleId) (account : Address) :
    Except LedgerError RegistryState :=
  if !hasRole s VERIFIER_ROLE sender then .error .missingRole
  else .ok (grantRoleInternal s sender role account)

/-- Public `revokeRole`, guarded by `onlyRole(VERIFIER_ROLE)`. -/
def revokeRole (s : RegistryState) (sender : Address) (role : RoleId) (account : Address) :
    Except LedgerError RegistryState :=
  if !hasRole s VERIFIER_ROLE sender then .error .missingRole
  else .ok (revokeRoleInternal s sender role account)

/-- `transferOwnership`, guarded by `onlyOwner`; rejects the zero address. -/
def transferOwnership (s : RegistryState) (sender : Address) (newOwner : Address) :
    Except LedgerError RegistryState :=
  if sender ≠ s.owner then .error .notOwner
  else if newOwner = 0 then .error .zeroAddress
  else .ok { s with owner := newOwner,
                    events := Event.ownershipTransferred s.owner newOwner :: s.events }

/-- The `AccessControl`/`SSIRegistry` constructor, run with
`msg.sender = deployer`: sets the owner, grants the deployer the
Verifier role, and records the metadata. -/
def initialState (deployer : Address) (name description : String) : RegistryState :=
  let s0 : RegistryState :=
    { roles := fun _ _ => false, owner := deployer,
      credentials := fun _ => emptyCredential, schemas := fun _ => emptySchema,
      schemaIds := [], consents := fun _ => emptyConsent,
      name := name, description := description, events := [] }
  let s1 := grantRoleInternal s0 deployer VERIFIER_ROLE deployer
  { s1 with events := Event.ownershipTransferred 0 deployer :: s1.events }

/-! ### CredentialRegistry -/

def _generateCredentialId (did credentialHash : String) : CredKey :=
  (did, credentialHash)

/-- `registerCredential`, guarded by `onlyRole(ISSUER_ROLE)`. -/
def registerCredential (s : RegistryState) (sender : Address) (now : Nat)
    (did credentialHash metadataURI : String) : Except LedgerError RegistryState :=
  if !hasRole s ISSUER_ROLE sender then .error .missingRole
  else if did.isEmpty then .error .invalidInput
  else if credentialHash.isEmpty then .error .invalidInput
  else
    let credentialId := _generateCredentialId did credentialHash
    if (s.credentials credentialId).isRegistered then .error .alreadyRegistered
    else .ok { s with
      credentials := setMap s.credentials credentialId
        { isRegistered := true, isRevoked := false, registeredAt := now,
          revokedAt := 0, registeredBy := sender, revokedBy := 0,
          metadataURI := metadataURI },
      events := Event.credentialRegistered credentialId did sender now :: s.events }

/-- `revokeCredential`, guarded by `onlyRole(ISSUER_ROLE)`; afterwards
requires the caller to be the original registrant or a Verifier. -/
def revokeCredential (s : RegistryState) (sender : Address) (now : Nat)
    (did credentialHash : String) : Except LedgerError RegistryState :=
  if !hasRole s ISSUER_ROLE sender then .error .missingRole
  else
    let credentialId := _generateCredentialId did credentialHash
    if !(s.credentials credentialId).isRegistered then .error .notFound
    else if (s.credentials credentialId).isRevoked then .error .alreadyRevoked
    else if !(decide ((s.credentials credentialId).registeredBy = sender) ||
              hasRole s VERIFIER_ROLE sender) then .error .unauthorized
    else .ok { s with
      credentials := setMap s.credentials credentialId
        { s.credentials credentialId with
          isRevoked := true, revokedAt := now, revokedBy := sender },
      events := Event.credentialRevoked credentialId did sender now :: s.events }

def isCredentialValid (s : RegistryState) (did credentialHash : String) : Bool :=
  let credentialId := _generateCredentialId did credentialHash
  (s.credentials credentialId).isRegistered && !(s.credentials credentialId).isRevoked

/-! ### SchemaRegistry -/

/-- `_updateSchema` (private): requires the caller to be the original
registrant or a Verifier, then overwrites the URI and bumps `version`. -/
def _updateSchema (s : RegistryState) (sender : Address) (now : Nat)
    (schemaId schemaURI : String) : Except LedgerError RegistryState :=
  if !(decide ((s.schemas schemaId).registeredBy = sender) ||
       hasRole s VERIFIER_ROLE sender) then .error .unauthorized
  else
    let sch := s.schemas schemaId
    .ok { s with
      schemas := setMap s.schemas schemaId
        { sch with schemaURI := schemaURI, updatedAt := now,
                   updatedBy := sender, version := sch.version + 1 },
      events := Event.schemaUpdated schemaId schemaURI sender now (sch.version + 1) :: s.events }

/-- `registerSchema`, guarded by `onlyRole(ISSUER_ROLE)`: creates the
schema at version 1, or delegates to `_updateSchema` when the id is
already registered. -/
def registerSchema (s : RegistryState) (sender : Address) (now : Nat)
    (schemaId schemaURI : String) : Except LedgerError RegistryState :=
  if !hasRole s ISSUER_ROLE sender then .error .missingRole
  else if schemaId.isEmpty then .error .invalidInput
  else if schemaURI.isEmpty then .error .invalidInput
  else if (s.schemas schemaId).isRegistered then _updateSchema s sender now schemaId schemaURI
  else .ok { s with
    schemas := setMap s.schemas schemaId
      { schemaURI := schemaURI, isRegistered := true, registeredAt := now,
        updatedAt := now, registeredBy := sender, updatedBy := sender, version := 1 },
    schemaIds := s.schemaIds ++ [schemaId],
    events := Event.schemaRegistered schemaId schemaURI sender now :: s.events }

def getSchemaURI (s : RegistryState) (schemaId : String) : Except LedgerError String :=
  if !(s.schemas schemaId).isRegistered then .error .notFound
  else .ok (s.schemas schemaId).schemaURI

def isSchemaRegistered (s : RegistryState) (schemaId : String) : Bool :=
  (s.schemas schemaId).isRegistered

def getSchemaCount (s : RegistryState) : Nat :=
  s.schemaIds.length

def getSchemaIdByIndex (s : RegistryState) (index : Nat) : Except LedgerError String :=
  if h : index < s.schemaIds.length then .ok (s.schemaIds.get ⟨index, h⟩)
  else .error .outOfBounds

/-! ### ConsentRegistry -/

def _generateConsentKey (userDid verifierDid purpose : String) : ConsentKey :=
  (userDid, verifierDid, purpose)

/-- `grantConsent`: no role restriction.  A registered-and-revoked record
is reactivated (revocation fields cleared) before being overwritten. -/
def grantConsent (s : RegistryState) (sender : Address) (now : Nat)
    (userDid verifierDid purpose dataCategories : String)
    (accessLevel : AccessLevel) (expiresAt : Nat) : Except LedgerError RegistryState :=
  if userDid.isEmpty then .error .invalidInput
  else if verifierDid.isEmpty then .error .invalidInput
  else if purpose.isEmpty then .error .invalidInput
  else
    let key := _generateConsentKey userDid verifierDid purpose
    let c0 := s.consents key
    let c1 := if c0.isRegistered && c0.isRevoked then
                { c0 with isRevoked := false, revokedAt := 0, revokedBy := 0 }
              else c0
    .ok { s with
      consents := setMap s.consents key
        { c1 with isRegistered := true, registeredAt := now, registeredBy := sender,
                  expiresAt := expiresAt, purpose := purpose,
                  dataCategories := dataCategories, accessLevel := accessLevel },
      events := Event.consentGranted userDid verifierDid purpose sender now :: s.events }

/-- `revokeConsent`: no role restriction. -/
def revokeConsent (s : RegistryState) (sender : Address) (now : Nat)
    (userDid verifierDid purpose : String) : Except LedgerError RegistryState :=
  let key := _generateConsentKey userDid verifierDid purpose
  if !(s.consents key).isRegistered then .error .notFound
  else if (s.consents key).isRevoked then .error .alreadyRevoked
  else .ok { s with
    consents := setMap s.consents key
      { s.consents key with isRevoked := true, revokedAt := now, revokedBy := sender },
    events := Event.consentRevoked userDid verifierDid purpose sender now :: s.events }

def isConsentValid (s : RegistryState) (now : Nat)
    (userDid verifierDid purpose : String) : Bool :=
  let key := _generateConsentKey userDid verifierDid purpose
  if !(s.consents key).isRegistered || (s.consents key).isRevoked then false
  else if (s.consents key).expiresAt > 0 && now > (s.consents key).expiresAt then false
  else true

/-! ### SSIRegistry convenience wrappers and SSIRegistryFactory -/

/-- `addIssuer`, guarded by `onlyRole(VERIFIER_ROLE)`, delegating to
`grantRole` (which checks the same modifier again with the same sender). -/
def addIssuer (s : RegistryState) (sender : Address) (issuer : Address) :
    Except LedgerError RegistryState :=
  if !hasRole s VERIFIER_ROLE sender then .error .missingRole
  else grantRole s sender ISSUER_ROLE issuer

def removeIssuer (s : RegistryState) (sender : Address) (issuer : Address) :
    Except LedgerError RegistryState :=
  if !hasRole s VERIFIER_ROLE sender then .error .missingRole
  else revokeRole s sender ISSUER_ROLE issuer

def addVerifier (s : RegistryState) (sender : Address) (verifier : Address) :
    Except LedgerError RegistryState :=
  if !hasRole s VERIFIER_ROLE sender then .error .missingRole
  else grantRole s sender VERIFIER_ROLE verifier

def removeVerifier (s : RegistryState) (sender : Address) (verifier : Address) :
    Except LedgerError RegistryState :=
  if !hasRole s VERIFIER_ROLE sender then .error .missingRole
  else revokeRole s sender VERIFIER_ROLE verifier

def updateMetadata (s : RegistryState) (sender : Address) (name description : String) :
    Except LedgerError RegistryState :=
  if sender ≠ s.owner then .error .notOwner
  else .ok { s with name := name, description := description }

/-- `SSIRegistryFactory.createRegistry`: deploys a fresh `SSIRegistry`
with `msg.sender = factoryAddr` (so the factory is the deployer inside the
facade constructor) and then transfers ownership to the caller.  The
shared DID registry address plays no role in the modelled state. -/
def createRegistry (factoryAddr caller : Address) (name description : String) :
    Except LedgerError RegistryState :=
  let registry := initialState factoryAddr name description
  transferOwnership registry factoryAddr caller

/-! ### Trace semantics

Every public state-changing entry point of the deployed facade, for the
trace-level invariants: a failed (reverting) call leaves the state
unchanged. -/

inductive Op : Type where
  | opGrantRole (sender : Address) (role : RoleId) (account : Address)
  | opRevokeRole (sender : Address) (role : RoleId) (account : Address)
  | opTransferOwnership (sender : Address) (newOwner : Address)
  | opRegisterCredential (sender : Address) (now : Nat) (did credentialHash metadataURI : String)
  | opRevokeCredential (sender : Address) (now : Nat) (did credentialHash : String)
  | opRegisterSchema (sender : Address) (now : Nat) (schemaId schemaURI : String)
  | opGrantConsent (sender : Address) (now : Nat) (userDid verifierDid purpose dataCategories : String) (accessLevel : AccessLevel) (expiresAt : Nat)
  | opRevokeConsent (sender : Address) (now : Nat) (userDid verifierDid purpose : String)
  | opAddIssuer (sender : Address) (issuer : Address)
  | opRemoveIssuer (sender : Address) (issuer : Address)
  | opAddVerifier (sender : Address) (verifier : Address)
  | opRemoveVerifier (sender : Address) (verifier : Address)
  | opUpdateMetadata (sender : Address) (name description : String)

def applyOp (s : RegistryState) : Op → Except LedgerError RegistryState
  | .opGrantRole sender role account => grantRole s sender role account
  | .opRevokeRole sender role account => revokeRole s sender role account
  | .opTransferOwnership sender newOwner => transferOwnership s sender newOwner
  | .opRegisterCredential sender now did credentialHash metadataURI =>
      registerCredential s sender now did credentialHash metadataURI
  | .opRevokeCredential sender now did credentialHash =>
      revokeCredential s sender now did credentialHash
  | .opRegisterSchema sender now schemaId schemaURI =>
      registerSchema s sender now schemaId schemaURI
  | .opGrantConsent sender now userDid verifierDid purpose dataCategories accessLevel expiresAt =>
      grantConsent s sender now userDid verifierDid purpose dataCategories accessLevel expiresAt
  | .opRevokeConsent sender now userDid verifierDid purpose =>
      revokeConsent s sender now userDid verifierDid purpose
  | .opAddIssuer sender issuer => addIssuer s sender issuer
  | .opRemoveIssuer sender issuer => removeIssuer s sender issuer
  | .opAddVerifier sender verifier => addVerifier s sender verifier
  | .opRemoveVerifier sender verifier => removeVerifier s sender verifier
  | .opUpdateMetadata sender name description => updateMetadata s sender name description

/-- One transaction: a reverting call leaves the state unchanged. -/
def step (s : RegistryState) (op : Op) : RegistryState :=
  match applyOp s op with
  | .ok s' => s'
  | .error _ => s

def run (s : RegistryState) (ops : List Op) : RegistryState :=
  ops.foldl step s

/-- Extracts the post-state of a successful call; on a reverted call it
yields the (irrelevant) default state. -/
def okState (r : Except LedgerError RegistryState) : RegistryState :=
  r.toOption.getD default

/-! ### PostQuantumCryptoCore

The crypto module of the repository (`src/utils/crypto.rs`, Kyber KEM +
Dilithium signatures per the README) is not among the provided sources,
so it is modelled abstractly from the design document. -/

/-- Modelled from the spec: derivation of the public key from the private
key of a generated keypair (the missing `src/utils/crypto.rs` keypair
generation).  Any injective map serves the abstract model. -/
def pkOf (privateKey : Nat) : Nat :=
  privateKey + 1

/-- Modelled from the spec: keypair generation of the missing
`src/utils/crypto.rs` — returns `(privateKey, publicKey)`. -/
def generateKeypair (seed : Nat) : Nat × Nat :=
  (seed, pkOf seed)

/-- Modelled from the spec: `sign(privateKey, message) → signature` of the
missing Dilithium signing in `src/utils/crypto.rs`.  The abstract
signature binds the signer's public key and the exact message bits, so
that verification is sound and any bit flip invalidates it. -/
def sign (privateKey : Nat) (message : List Bool) : List Bool :=
  List.replicate (pkOf privateKey) true ++ message

/-- Modelled from the spec: `verify(publicKey, message, signature) → bool`
of the missing Dilithium verification in `src/utils/crypto.rs` — accepts
exactly the signature that `sign` produces for this key and message. -/
def verify (publicKey : Nat) (message signature : List Bool) : Bool :=
  signature == List.replicate publicKey true ++ message

/-- Modelled from the spec: `encapsulate(recipientPublicKey) →
(sharedSecret, ciphertext)` of the missing Kyber KEM in
`src/utils/crypto.rs`; the fresh randomness of the primitive is an
explicit argument in the model. -/
def encapsulate (recipientPublicKey : Nat) (randomness : Nat) : (Nat × Nat) × Nat :=
  ((recipientPublicKey, randomness), randomness)

/-- Modelled from the spec: `decapsulate(recipientPrivateKey, ciphertext)
→ sharedSecret` of the missing Kyber KEM in `src/utils/crypto.rs`. -/
def decapsulate (recipientPrivateKey : Nat) (ciphertext : Nat) : Nat × Nat :=
  (pkOf recipientPrivateKey, ciphertext)

/-- Flipping one bit of a bit string, for the tamper-detection property. -/
def flipBit (l : List Bool) (i : Nat) : List Bool :=
  l.set i (!l.getD i false)

/-! ### Concrete scenario states for witnesses and counterexamples

Account 9 deploys the registry (and is therefore a Verifier), grants the
Issuer role to account 1 and the Verifier role to account 2, and account
1 registers a credential. -/

def demoS0 : RegistryState :=
  initialState 9 "registry" "demo"

def demoS1 : RegistryState :=
  okState (grantRole demoS0 9 ISSUER_ROLE 1)

def demoS2 : RegistryState :=
  okState (grantRole demoS1 9 VERIFIER_ROLE 2)

def demoState : RegistryState :=
  okState (registerCredential demoS2 1 10 "did:demo" "hash1" "uri1")

example : hasRole (initialState 9 "n" "d") VERIFIER_ROLE 9 = true := by decide

example : (initialState 9 "n" "d").owner = 9 := by decide

example : hasRole demoState ISSUER_ROLE 1 = true := by decide

example : hasRole demoState VERIFIER_ROLE 2 = true := by decide

example : hasRole demoState ISSUER_ROLE 2 = false := by decide

example : (demoState.credentials ("did:demo", "hash1")).isRegistered = true := by decide

example : isCredentialValid demoState "did:demo" "hash1" = true := by decide

example : revokeCredential demoState 2 11 "did:demo" "hash1" = .error .missingRole := rfl

/-! ### Characterisations of successful calls -/

theorem transferOwnership_ok {s s' : RegistryState} {sender newOwner : Address}
    (h : transferOwnership s sender newOwner = .ok s') :
    sender = s.owner ∧ newOwner ≠ 0 ∧
      s' = { s with owner := newOwner,
                    events := Event.ownershipTransferred s.owner newOwner :: s.events } := by
  simp only [transferOwnership] at h
  split_ifs at h with h1 h2
  simp_all

theorem registerCredential_ok {s s' : RegistryState} {sender : Address} {now : Nat}
    {did credentialHash metadataURI : String}
    (h : registerCredential s sender now did credentialHash metadataURI = .ok s') :
    hasRole s ISSUER_ROLE sender = true ∧ did.isEmpty = false ∧
      credentialHash.isEmpty = false ∧
      (s.credentials (did, credentialHash)).isRegistered = false ∧
      s' = { s with
        credentials := setMap s.credentials (did, credentialHash)
          { isRegistered := true, isRevoked := false, registeredAt := now,
            revokedAt := 0, registeredBy := sender, revokedBy := 0,
            metadataURI := metadataURI },
        events := Event.credentialRegistered (did, credentialHash) did sender now :: s.events } := by
  simp only [registerCredential, _generateCredentialId] at h
  split_ifs at h with h1 h2 h3 h4
  simp_all

theorem revokeCredential_ok {s s' : RegistryState} {sender : Address} {now : Nat}
    {did credentialHash : String}
    (h : revokeCredential s sender now did credentialHash = .ok s') :
    hasRole s ISSUER_ROLE sender = true ∧
      (s.credentials (did, credentialHash)).isRegistered = true ∧
      (s.credentials (did, credentialHash)).isRevoked = false ∧
      ((s.credentials (did, credentialHash)).registeredBy = sender ∨
        hasRole s VERIFIER_ROLE sender = true) ∧
      s' = { s with
        credentials := setMap s.credentials (did, credentialHash)
          { s.credentials (did, credentialHash) with
            isRevoked := true, revokedAt := now, revokedBy := sender },
        events := Event.credentialRevoked (did, credentialHash) did sender now :: s.events } := by
  simp only [revokeCredential, _generateCredentialId] at h
  split_ifs at h with h1 h2 h3 h4
  simp_all
  exact or_iff_not_imp_left.mpr h4

/-! ### Claim C9 -/

/-- Claim C9: `transferOwnership(newOwner)`, when called by the current
owner with a non-zero `newOwner`, changes only the owner field of the
directory state: every `hasRole(role, identity)` value is unchanged, so
the previous owner keeps any Verifier role and the new owner gains no
role membership; the credential, schema and consent stores are also
untouched. -/
theorem C9_transferOwnership_frame (s s' : RegistryState) (sender newOwner : Address)
    (h : transferOwnership s sender newOwner = .ok s') :
    s'.owner = newOwner ∧
    (∀ role account, hasRole s' role account = hasRole s role account) ∧
    s'.credentials = s.credentials ∧ s'.schemas = s.schemas ∧
    s'.consents = s.consents ∧ s'.schemaIds = s.schemaIds := by
  obtain ⟨-, -, rfl⟩ := transferOwnership_ok h
  simp [hasRole]

def c9State : RegistryState :=
  okState (transferOwnership demoState 9 5)

/-- Witness for C9 at a concrete transfer: the deployer (account 9) hands
the demo registry to account 5; account 9 keeps its Verifier role and
account 5 gains none. -/
theorem C9_transferOwnership_frame_witness :
    c9State.owner = 5 ∧
    hasRole c9State VERIFIER_ROLE 9 = hasRole demoState VERIFIER_ROLE 9 ∧
    hasRole c9State VERIFIER_ROLE 5 = hasRole demoState VERIFIER_ROLE 5 ∧
    c9State.credentials = demoState.credentials :=
  ⟨(C9_transferOwnership_frame demoState c9State 9 5 rfl).1,
   (C9_transferOwnership_frame demoState c9State 9 5 rfl).2.1 VERIFIER_ROLE 9,
   (C9_transferOwnership_frame demoState c9State 9 5 rfl).2.1 VERIFIER_ROLE 5,
   (C9_transferOwnership_frame demoState c9State 9 5 rfl).2.2.1⟩

/-! ### Claim C1 -/

/-- Counterexample to claim C1 as stated: account 2 holds the Verifier
role and the credential is registered and unrevoked, yet
`revokeCredential` by account 2 reverts (with the missing-role error of
the `onlyRole(ISSUER_ROLE)` modifier) instead of succeeding, because
account 2 does not hold the Issuer role. -/
theorem C1_counterexample :
    hasRole demoState VERIFIER_ROLE 2 = true ∧
    hasRole demoState ISSUER_ROLE 2 = false ∧
    (demoState.credentials ("did:demo", "hash1")).isRegistered = true ∧
    (demoState.credentials ("did:demo", "hash1")).isRevoked = false ∧
    revokeCredential demoState 2 11 "did:demo" "hash1" = .error .missingRole ∧
    (revokeCredential demoState 2 11 "did:demo" "hash1").isOk = false :=
  ⟨by decide, by decide, by decide, by decide, rfl, rfl⟩

/-- Claim C1 (amended): `revokeCredential` on a registered, unrevoked
credential first requires the caller to hold the Issuer role (the
`onlyRole(ISSUER_ROLE)` modifier, failing with the missing-role error);
among Issuer-role callers it fails with `Unauthorized` unless the caller
is the original registrant or holds the Verifier role, and succeeds —
setting the revoked flag, timestamp and actor — whenever the caller is
the original registrant or holds the Verifier role. -/
theorem C1_revoke_authorization (s : RegistryState) (sender : Address) (now : Nat)
    (did credentialHash : String)
    (hreg : (s.credentials (did, credentialHash)).isRegistered = true)
    (hnrev : (s.credentials (did, credentialHash)).isRevoked = false) :
    (hasRole s ISSUER_ROLE sender = false →
       revokeCredential s sender now did credentialHash = .error .missingRole) ∧
    (hasRole s ISSUER_ROLE sender = true →
       ((s.credentials (did, credentialHash)).registeredBy ≠ sender →
        hasRole s VERIFIER_ROLE sender = false →
          revokeCredential s sender now did credentialHash = .error .unauthorized) ∧
       (((s.credentials (did, credentialHash)).registeredBy = sender ∨
         hasRole s VERIFIER_ROLE sender = true) →
          (revokeCredential s sender now did credentialHash).isOk = true ∧
          ((okState (revokeCredential s sender now did credentialHash)).credentials
            (did, credentialHash)).isRevoked = true ∧
          ((okState (revokeCredential s sender now did credentialHash)).credentials
            (did, credentialHash)).revokedAt = now ∧
          ((okState (revokeCredential s sender now did credentialHash)).credentials
            (did, credentialHash)).revokedBy = sender)) := by
  refine ⟨fun hni => ?_, fun hi => ⟨fun hnr hnv => ?_, fun hor => ?_⟩⟩
  · simp [revokeCredential, _generateCredentialId, hni]
  · simp [revokeCredential, _generateCredentialId, hi, hreg, hnrev, hnr, hnv]
  · have hcond : (decide ((s.credentials (did, credentialHash)).registeredBy = sender) ||
        hasRole s VERIFIER_ROLE sender) = true := by
      rcases hor with h | h <;> simp [h]
    simp [revokeCredential, _generateCredentialId, hi, hreg, hnrev, hcond, okState,
      Except.toOption, Except.isOk, Except.toBool, setMap]

/-- Witness for C1 (amended): in the demo registry, the registering
issuer (account 1) successfully revokes its credential, while account 2
(a pure Verifier, not an Issuer) is stopped by the role modifier. -/
theorem C1_revoke_authorization_witness :
    (revokeCredential demoState 1 11 "did:demo" "hash1").isOk = true ∧
    ((okState (revokeCredential demoState 1 11 "did:demo" "hash1")).credentials
      ("did:demo", "hash1")).isRevoked = true ∧
    revokeCredential demoState 2 11 "did:demo" "hash1" = .error .missingRole :=
  ⟨(((C1_revoke_authorization demoState 1 11 "did:demo" "hash1" (by decide) (by decide)).2
      (by decide)).2 (Or.inl (by decide))).1,
   (((C1_revoke_authorization demoState 1 11 "did:demo" "hash1" (by decide) (by decide)).2
      (by decide)).2 (Or.inl (by decide))).2.1,
   (C1_revoke_authorization demoState 2 11 "did:demo" "hash1" (by decide) (by decide)).1
     (by decide)⟩

/-! ### Claim C2 -/

/-- Claim C2: once `registerCredential` succeeds, `isCredentialValid` is
true, and any further `registerCredential` with the identical
(subjectDID, credentialHash) by an Issuer-role caller fails with
`AlreadyRegistered` — also after the credential has been revoked, since
registration is write-once per derived credential id. -/
theorem C2_register_write_once (s s' : RegistryState) (sender : Address) (now : Nat)
    (did credentialHash metadataURI : String)
    (h : registerCredential s sender now did credentialHash metadataURI = .ok s') :
    isCredentialValid s' did credentialHash = true ∧
    (∀ sender2 now2 uri2, hasRole s' ISSUER_ROLE sender2 = true →
       registerCredential s' sender2 now2 did credentialHash uri2 =
         .error .alreadyRegistered) ∧
    (∀ sender3 now3 s'', revokeCredential s' sender3 now3 did credentialHash = .ok s'' →
       ∀ sender4 now4 uri4, hasRole s'' ISSUER_ROLE sender4 = true →
         registerCredential s'' sender4 now4 did credentialHash uri4 =
           .error .alreadyRegistered) := by
  obtain ⟨hrole, hdid, hch, hfresh, rfl⟩ := registerCredential_ok h
  refine ⟨?_, fun sender2 now2 uri2 h2 => ?_, fun sender3 now3 s'' h3 sender4 now4 uri4 h4 => ?_⟩
  · simp [isCredentialValid, _generateCredentialId, setMap]
  · simp only [hasRole] at h2
    simp [registerCredential, _generateCredentialId, hasRole, h2, hdid, hch, setMap]
  · obtain ⟨-, hreg3, -, -, rfl⟩ := revokeCredential_ok h3
    simp only [hasRole] at h4
    simp only [setMap] at hreg3 ⊢
    simp [registerCredential, _generateCredentialId, hasRole, h4, hdid, hch, setMap]

/-- Witness for C2: in the demo registry the registered credential is
valid, and a re-registration attempt by the issuer fails with
`AlreadyRegistered`. -/
theorem C2_register_write_once_witness :
    isCredentialValid demoState "did:demo" "hash1" = true ∧
    registerCredential demoState 1 12 "did:demo" "hash1" "uri2" =
      .error .alreadyRegistered :=
  ⟨(C2_register_write_once demoS2 demoState 1 10 "did:demo" "hash1" "uri1" rfl).1,
   (C2_register_write_once demoS2 demoState 1 10 "did:demo" "hash1" "uri1" rfl).2.1
     1 12 "uri2" (by decide)⟩

/-! ### Credential-store frame lemmas, for the trace-level invariant -/

theorem grantRole_credentials {s s' : RegistryState} {sender : Address} {role : RoleId}
    {account : Address} (h : grantRole s sender role account = .ok s') :
    s'.credentials = s.credentials := by
  simp only [grantRole, grantRoleInternal] at h
  split_ifs at h <;> (injection h with h; subst h; rfl)

theorem revokeRole_credentials {s s' : RegistryState} {sender : Address} {role : RoleId}
    {account : Address} (h : revokeRole s sender role account = .ok s') :
    s'.credentials = s.credentials := by
  simp only [revokeRole, revokeRoleInternal] at h
  split_ifs at h <;> (injection h with h; subst h; rfl)

theorem registerSchema_credentials {s s' : RegistryState} {sender : Address} {now : Nat}
    {schemaId schemaURI : String} (h : registerSchema s sender now schemaId schemaURI = .ok s') :
    s'.credentials = s.credentials := by
  simp only [registerSchema, _updateSchema] at h
  split_ifs at h <;> (injection h with h; subst h; rfl)

theorem grantConsent_credentials {s s' : RegistryState} {sender : Address} {now : Nat}
    {userDid verifierDid purpose dataCategories : String} {accessLevel : AccessLevel}
    {expiresAt : Nat}
    (h : grantConsent s sender now userDid verifierDid purpose dataCategories accessLevel expiresAt = .ok s') :
    s'.credentials = s.credentials := by
  simp only [grantConsent, _generateConsentKey] at h
  split_ifs at h <;> (injection h with h; subst h; rfl)

theorem revokeConsent_credentials {s s' : RegistryState} {sender : Address} {now : Nat}
    {userDid verifierDid purpose : String}
    (h : revokeConsent s sender now userDid verifierDid purpose = .ok s') :
    s'.credentials = s.credentials := by
  simp only [revokeConsent, _generateConsentKey] at h
  split_ifs at h
  injection h with h
  subst h
  rfl

theorem updateMetadata_credentials {s s' : RegistryState} {sender : Address}
    {name description : String} (h : updateMetadata s sender name description = .ok s') :
    s'.credentials = s.credentials := by
  simp only [updateMetadata] at h
  split_ifs at h
  injection h with h
  subst h
  rfl

theorem addIssuer_credentials {s s' : RegistryState} {sender issuer : Address}
    (h : addIssuer s sender issuer = .ok s') : s'.credentials = s.credentials := by
  simp only [addIssuer] at h
  split_ifs at h
  exact grantRole_credentials h

theorem removeIssuer_credentials {s s' : RegistryState} {sender issuer : Address}
    (h : removeIssuer s sender issuer = .ok s') : s'.credentials = s.credentials := by
  simp only [removeIssuer] at h
  split_ifs at h
  exact revokeRole_credentials h

theorem addVerifier_credentials {s s' : RegistryState} {sender verifier : Address}
    (h : addVerifier s sender verifier = .ok s') : s'.credentials = s.credentials := by
  simp only [addVerifier] at h
  split_ifs at h
  exact grantRole_credentials h

theorem removeVerifier_credentials {s s' : RegistryState} {sender verifier : Address}
    (h : removeVerifier s sender verifier = .ok s') : s'.credentials = s.credentials := by
  simp only [removeVerifier] at h
  split_ifs at h
  exact revokeRole_credentials h

/-- A successful call of any public entry point keeps a
registered-and-revoked credential registered and revoked. -/
theorem applyOp_revoked_preserved {s s2 : RegistryState} {op : Op} {k : CredKey}
    (happ : applyOp s op = .ok s2)
    (h1 : (s.credentials k).isRegistered = true)
    (h2 : (s.credentials k).isRevoked = true) :
    (s2.credentials k).isRegistered = true ∧ (s2.credentials k).isRevoked = true := by
  cases op with
  | opGrantRole sender role account =>
      simp only [applyOp] at happ
      rw [grantRole_credentials happ]; exact ⟨h1, h2⟩
  | opRevokeRole sender role account =>
      simp only [applyOp] at happ
      rw [revokeRole_credentials happ]; exact ⟨h1, h2⟩
  | opTransferOwnership sender newOwner =>
      simp only [applyOp] at happ
      obtain ⟨-, -, rfl⟩ := transferOwnership_ok happ
      exact ⟨h1, h2⟩
  | opRegisterCredential sender now did credentialHash metadataURI =>
      simp only [applyOp] at happ
      obtain ⟨-, -, -, hfresh, rfl⟩ := registerCredential_ok happ
      by_cases hk : k = (did, credentialHash)
      · rw [hk] at h1; rw [h1] at hfresh; cases hfresh
      · simp [setMap, hk, h1, h2]
  | opRevokeCredential sender now did credentialHash =>
      simp only [applyOp] at happ
      obtain ⟨-, hr, -, -, rfl⟩ := revokeCredential_ok happ
      by_cases hk : k = (did, credentialHash)
      · subst hk; simp [setMap, hr]
      · simp [setMap, hk, h1, h2]
  | opRegisterSchema sender now schemaId schemaURI =>
      simp only [applyOp] at happ
      rw [registerSchema_credentials happ]; exact ⟨h1, h2⟩
  | opGrantConsent sender now userDid verifierDid purpose dataCategories accessLevel expiresAt =>
      simp only [applyOp] at happ
      rw [grantConsent_credentials happ]; exact ⟨h1, h2⟩
  | opRevokeConsent sender now userDid verifierDid purpose =>
      simp only [applyOp] at happ
      rw [revokeConsent_credentials happ]; exact ⟨h1, h2⟩
  | opAddIssuer sender issuer =>
      simp only [applyOp] at happ
      rw [addIssuer_credentials happ]; exact ⟨h1, h2⟩
  | opRemoveIssuer sender issuer =>
      simp only [applyOp] at happ
      rw [removeIssuer_credentials happ]; exact ⟨h1, h2⟩
  | opAddVerifier sender verifier =>
      simp only [applyOp] at happ
      rw [addVerifier_credentials happ]; exact ⟨h1, h2⟩
  | opRemoveVerifier sender verifier =>
      simp only [applyOp] at happ
      rw [removeVerifier_credentials happ]; exact ⟨h1, h2⟩
  | opUpdateMetadata sender name description =>
      simp only [applyOp] at happ
      rw [updateMetadata_credentials happ]; exact ⟨h1, h2⟩

theorem step_revoked_preserved (s : RegistryState) (op : Op) (k : CredKey)
    (h1 : (s.credentials k).isRegistered = true)
    (h2 : (s.credentials k).isRevoked = true) :
    ((step s op).credentials k).isRegistered = true ∧
    ((step s op).credentials k).isRevoked = true := by
  rcases happ : applyOp s op with e | s2
  · simp [step, happ, h1, h2]
  · simpa [step, happ] using applyOp_revoked_preserved happ h1 h2

theorem run_revoked_preserved (k : CredKey) (ops : List Op) :
    ∀ s : RegistryState, (s.credentials k).isRegistered = true →
      (s.credentials k).isRevoked = true →
      ((run s ops).credentials k).isRegistered = true ∧
      ((run s ops).credentials k).isRevoked = true := by
  induction ops with
  | nil => intro s h1 h2; exact ⟨h1, h2⟩
  | cons op rest ih =>
      intro s h1 h2
      have hstep := step_revoked_preserved s op k h1 h2
      exact ih (step s op) hstep.1 hstep.2

/-! ### Claim C3 -/

/-- Claim C3: revocation is monotonic.  After a successful
`revokeCredential`, the credential stays revoked across every sequence of
public operations, `isCredentialValid` is false then and forever after,
and a second `revokeCredential` never succeeds: it fails with
`AlreadyRevoked` for every caller that passes the Issuer-role modifier. -/
theorem C3_revocation_monotonic (s s' : RegistryState) (sender : Address) (now : Nat)
    (did credentialHash : String)
    (h : revokeCredential s sender now did credentialHash = .ok s') :
    (∀ ops, ((run s' ops).credentials (did, credentialHash)).isRevoked = true ∧
            isCredentialValid (run s' ops) did credentialHash = false) ∧
    (∀ sender2 now2,
       (hasRole s' ISSUER_ROLE sender2 = true →
          revokeCredential s' sender2 now2 did credentialHash = .error .alreadyRevoked) ∧
       (revokeCredential s' sender2 now2 did credentialHash).isOk = false) := by
  obtain ⟨hi, hr, hnr, hor, rfl⟩ := revokeCredential_ok h
  simp only [hasRole] at hi
  constructor
  · intro ops
    have hrun := run_revoked_preserved (did, credentialHash) ops
      { s with
        credentials := setMap s.credentials (did, credentialHash)
          { s.credentials (did, credentialHash) with
            isRevoked := true, revokedAt := now, revokedBy := sender },
        events := Event.credentialRevoked (did, credentialHash) did sender now :: s.events }
      (by simp [setMap, hr]) (by simp [setMap])
    exact ⟨hrun.2, by simp [isCredentialValid, _generateCredentialId, hrun.2]⟩
  · intro sender2 now2
    by_cases hi2 : hasRole { s with
        credentials := setMap s.credentials (did, credentialHash)
          { s.credentials (did, credentialHash) with
            isRevoked := true, revokedAt := now, revokedBy := sender },
        events := Event.credentialRevoked (did, credentialHash) did sender now :: s.events }
        ISSUER_ROLE sender2 = true
    · simp only [hasRole] at hi2
      constructor
      · intro _
        simp [revokeCredential, _generateCredentialId, hasRole, hi2, setMap, hr]
      · simp [revokeCredential, _generateCredentialId, hasRole, hi2, setMap, hr,
          Except.isOk, Except.toBool]
    · have hi2f : hasRole { s with
          credentials := setMap s.credentials (did, credentialHash)
            { s.credentials (did, credentialHash) with
              isRevoked := true, revokedAt := now, revokedBy := sender },
          events := Event.credentialRevoked (did, credentialHash) did sender now :: s.events }
          ISSUER_ROLE sender2 = false := by
        simpa using hi2
      simp only [hasRole] at hi2f
      constructor
      · intro hcontra
        simp only [hasRole] at hcontra
        rw [hcontra] at hi2f
        cases hi2f
      · simp [revokeCredential, _generateCredentialId, hasRole, hi2f,
          Except.isOk, Except.toBool]

def c3State : RegistryState :=
  okState (revokeCredential demoState 1 11 "did:demo" "hash1")

/-- Witness for C3: after the issuer revokes the demo credential, it stays
revoked even after a re-registration attempt, is invalid, and a second
revoke fails with `AlreadyRevoked`. -/
theorem C3_revocation_monotonic_witness :
    ((run c3State [Op.opRegisterCredential 1 12 "did:demo" "hash1" "uri2"]).credentials
      ("did:demo", "hash1")).isRevoked = true ∧
    isCredentialValid (run c3State []) "did:demo" "hash1" = false ∧
    revokeCredential c3State 1 13 "did:demo" "hash1" = .error .alreadyRevoked :=
  ⟨((C3_revocation_monotonic demoState c3State 1 11 "did:demo" "hash1" rfl).1
      [Op.opRegisterCredential 1 12 "did:demo" "hash1" "uri2"]).1,
   ((C3_revocation_monotonic demoState c3State 1 11 "did:demo" "hash1" rfl).1 []).2,
   ((C3_revocation_monotonic demoState c3State 1 11 "did:demo" "hash1" rfl).2 1 13).1
     (by decide)⟩

/-! ### Claim C4 -/

/-- Tail of the consent round-trip: from any state whose record at the
key is registered, unrevoked and without expiry, the consent is valid;
revoking makes it invalid; and a further grant with no expiry succeeds,
clears the revocation fields, and restores validity. -/
theorem consent_roundtrip_tail (s1 : RegistryState) (u v p : String)
    (hu : u.isEmpty = false) (hv : v.isEmpty = false) (hp : p.isEmpty = false)
    (hreg1 : (s1.consents (u, v, p)).isRegistered = true)
    (hrev1 : (s1.consents (u, v, p)).isRevoked = false)
    (hexp1 : (s1.consents (u, v, p)).expiresAt = 0) :
    (∀ t, isConsentValid s1 t u v p = true) ∧
    (∀ sender2 now2 s2, revokeConsent s1 sender2 now2 u v p = .ok s2 →
       (∀ t, isConsentValid s2 t u v p = false) ∧
       (∀ sender3 now3 dc2 al2,
          (grantConsent s2 sender3 now3 u v p dc2 al2 0).isOk = true ∧
          ((okState (grantConsent s2 sender3 now3 u v p dc2 al2 0)).consents
            (u, v, p)).isRevoked = false ∧
          ((okState (grantConsent s2 sender3 now3 u v p dc2 al2 0)).consents
            (u, v, p)).revokedAt = 0 ∧
          ((okState (grantConsent s2 sender3 now3 u v p dc2 al2 0)).consents
            (u, v, p)).revokedBy = 0 ∧
          (∀ t, isConsentValid (okState (grantConsent s2 sender3 now3 u v p dc2 al2 0))
            t u v p = true))) := by
  constructor
  · intro t
    simp [isConsentValid, _generateConsentKey, hreg1, hrev1, hexp1]
  · intro sender2 now2 s2 h2
    simp only [revokeConsent, _generateConsentKey] at h2
    split_ifs at h2 with h2a h2b
    injection h2 with h2
    subst h2
    refine ⟨fun t => ?_, fun sender3 now3 dc2 al2 => ?_⟩
    · simp [isConsentValid, _generateConsentKey, setMap]
    · refine ⟨?_, ?_, ?_, ?_, fun t => ?_⟩ <;>
        simp [grantConsent, _generateConsentKey, hu, hv, hp, okState,
          Except.toOption, Except.isOk, Except.toBool, isConsentValid, setMap, hreg1]

/-- Claim C4: consent round-trip with reactivation.  Starting from a
state whose record at the key is not revoked-without-being-registered
(true of every reachable state), a grant with no expiry makes the consent
valid; a revoke makes it invalid; a further grant on the same key
succeeds, clears `isRevoked`/`revokedAt`/`revokedBy` (overwriting the
record in place), and the consent is valid again. -/
theorem C4_consent_reactivation (s : RegistryState) (sender : Address) (now : Nat)
    (u v p dc : String) (al : AccessLevel) (s1 : RegistryState)
    (hwf : (s.consents (u, v, p)).isRevoked = true →
           (s.consents (u, v, p)).isRegistered = true)
    (h1 : grantConsent s sender now u v p dc al 0 = .ok s1) :
    (∀ t, isConsentValid s1 t u v p = true) ∧
    (∀ sender2 now2 s2, revokeConsent s1 sender2 now2 u v p = .ok s2 →
       (∀ t, isConsentValid s2 t u v p = false) ∧
       (∀ sender3 now3 dc2 al2,
          (grantConsent s2 sender3 now3 u v p dc2 al2 0).isOk = true ∧
          ((okState (grantConsent s2 sender3 now3 u v p dc2 al2 0)).consents
            (u, v, p)).isRevoked = false ∧
          ((okState (grantConsent s2 sender3 now3 u v p dc2 al2 0)).consents
            (u, v, p)).revokedAt = 0 ∧
          ((okState (grantConsent s2 sender3 now3 u v p dc2 al2 0)).consents
            (u, v, p)).revokedBy = 0 ∧
          (∀ t, isConsentValid (okState (grantConsent s2 sender3 now3 u v p dc2 al2 0))
            t u v p = true))) := by
  simp only [grantConsent, _generateConsentKey] at h1
  split_ifs at h1 with hu hv hp hreact
  all_goals injection h1 with h1
  all_goals subst h1
  all_goals
    refine consent_roundtrip_tail _ u v p (by simpa using hu) (by simpa using hv)
      (by simpa using hp) ?_ ?_ ?_
  · simp [setMap]
  · simp [setMap]
  · simp [setMap]
  · simp [setMap]
  · -- reactivation condition false: with well-formedness the record was unrevoked
    simp only [setMap, if_pos rfl]
    by_cases hrev : (s.consents (u, v, p)).isRevoked = true
    · exact absurd (by simp [hwf hrev, hrev]) hreact
    · simpa using hrev
  · simp [setMap]

def consentS1 : RegistryState :=
  okState (grantConsent demoS0 3 100 "did:alice" "did:bob" "research" "email" AccessLevel.readOnly 0)

def consentS2 : RegistryState :=
  okState (revokeConsent consentS1 3 101 "did:alice" "did:bob" "research")

/-- Witness for C4 on a concrete round-trip: grant, revoke, re-grant on
the key ("did:alice", "did:bob", "research"). -/
theorem C4_consent_reactivation_witness :
    isConsentValid consentS1 500 "did:alice" "did:bob" "research" = true ∧
    isConsentValid consentS2 500 "did:alice" "did:bob" "research" = false ∧
    (grantConsent consentS2 4 102 "did:alice" "did:bob" "research" "email2"
       AccessLevel.readWrite 0).isOk = true ∧
    ((okState (grantConsent consentS2 4 102 "did:alice" "did:bob" "research" "email2"
       AccessLevel.readWrite 0)).consents ("did:alice", "did:bob", "research")).isRevoked = false ∧
    isConsentValid (okState (grantConsent consentS2 4 102 "did:alice" "did:bob" "research"
       "email2" AccessLevel.readWrite 0)) 500 "did:alice" "did:bob" "research" = true :=
  ⟨(C4_consent_reactivation demoS0 3 100 "did:alice" "did:bob" "research" "email"
      AccessLevel.readOnly consentS1 (by decide) rfl).1 500,
   ((C4_consent_reactivation demoS0 3 100 "did:alice" "did:bob" "research" "email"
      AccessLevel.readOnly consentS1 (by decide) rfl).2 3 101 consentS2 rfl).1 500,
   (((C4_consent_reactivation demoS0 3 100 "did:alice" "did:bob" "research" "email"
      AccessLevel.readOnly consentS1 (by decide) rfl).2 3 101 consentS2 rfl).2
      4 102 "email2" AccessLevel.readWrite).1,
   (((C4_consent_reactivation demoS0 3 100 "did:alice" "did:bob" "research" "email"
      AccessLevel.readOnly consentS1 (by decide) rfl).2 3 101 consentS2 rfl).2
      4 102 "email2" AccessLevel.readWrite).2.1,
   (((C4_consent_reactivation demoS0 3 100 "did:alice" "did:bob" "research" "email"
      AccessLevel.readOnly consentS1 (by decide) rfl).2 3 101 consentS2 rfl).2
      4 102 "email2" AccessLevel.readWrite).2.2.2.2 500⟩

/-! ### Claim C5 -/

/-- Read-side validity of a consent, as a predicate on the stored record:
registered, not revoked, and unexpired (`expiresAt` 0 meaning no expiry,
otherwise valid exactly while the clock is at most `expiresAt`). -/
theorem isConsentValid_iff (s : RegistryState) (t : Nat) (u v p : String) :
    isConsentValid s t u v p = true ↔
      ((s.consents (u, v, p)).isRegistered = true ∧
       (s.consents (u, v, p)).isRevoked = false ∧
       ((s.consents (u, v, p)).expiresAt = 0 ∨
        t ≤ (s.consents (u, v, p)).expiresAt)) := by
  simp only [isConsentValid, _generateConsentKey]
  split_ifs with h1 h2
  · simp only [Bool.or_eq_true, Bool.not_eq_true'] at h1
    simp only [Bool.false_eq_true, false_iff, not_and]
    intro hreg hrev
    rcases h1 with h | h
    · rw [hreg] at h; cases h
    · rw [hrev] at h; cases h
  · simp only [Bool.and_eq_true, decide_eq_true_eq] at h2
    simp only [Bool.false_eq_true, false_iff, not_and]
    intro hreg hrev hexp
    omega
  · simp only [Bool.or_eq_true, Bool.not_eq_true', not_or] at h1
    simp only [Bool.and_eq_true, decide_eq_true_eq, not_and, not_lt] at h2
    obtain ⟨h1a, h1b⟩ := h1
    have hreg : (s.consents (u, v, p)).isRegistered = true := by
      cases hb : (s.consents (u, v, p)).isRegistered
      · exact absurd hb h1a
      · rfl
    have hrev : (s.consents (u, v, p)).isRevoked = false := by
      cases hb : (s.consents (u, v, p)).isRevoked
      · rfl
      · exact absurd hb h1b
    simp only [true_iff, hreg, hrev, true_and]
    omega

/-- Fields of the consent record right after a successful grant: the
record is registered, unrevoked (reactivation clears a previous
revocation; a well-formed unrevoked record stays unrevoked) and carries
exactly the supplied `expiresAt`. -/
theorem grantConsent_fields (s : RegistryState) (sender : Address) (now : Nat)
    (u v p dc : String) (al : AccessLevel) (e : Nat)
    (hu : u.isEmpty = false) (hv : v.isEmpty = false) (hp : p.isEmpty = false)
    (hwf : (s.consents (u, v, p)).isRevoked = true →
           (s.consents (u, v, p)).isRegistered = true) :
    (grantConsent s sender now u v p dc al e).isOk = true ∧
    ((okState (grantConsent s sender now u v p dc al e)).consents (u, v, p)).isRegistered = true ∧
    ((okState (grantConsent s sender now u v p dc al e)).consents (u, v, p)).isRevoked = false ∧
    ((okState (grantConsent s sender now u v p dc al e)).consents (u, v, p)).expiresAt = e := by
  by_cases hrev : (s.consents (u, v, p)).isRevoked = true
  · simp [grantConsent, _generateConsentKey, hu, hv, hp, okState, Except.toOption,
      Except.isOk, Except.toBool, setMap, hwf hrev, hrev]
  · have hrev' : (s.consents (u, v, p)).isRevoked = false := by simpa using hrev
    simp [grantConsent, _generateConsentKey, hu, hv, hp, okState, Except.toOption,
      Except.isOk, Except.toBool, setMap, hrev']

/-- Claim C5: `isConsentValid` is true exactly when the record is
registered, not revoked, and `expiresAt` is 0 or the clock is at most
`expiresAt`; a consent granted with `expiresAt = now + 1` is valid when
the clock reads exactly `now + 1` and invalid at every strictly later
time; and a non-zero `expiresAt` lying in the past is accepted by grant
without validation. -/
theorem C5_consent_validity (s : RegistryState) (sender : Address) (now : Nat)
    (u v p dc : String) (al : AccessLevel)
    (hu : u.isEmpty = false) (hv : v.isEmpty = false) (hp : p.isEmpty = false)
    (hwf : (s.consents (u, v, p)).isRevoked = true →
           (s.consents (u, v, p)).isRegistered = true) :
    (∀ t, isConsentValid s t u v p = true ↔
       ((s.consents (u, v, p)).isRegistered = true ∧
        (s.consents (u, v, p)).isRevoked = false ∧
        ((s.consents (u, v, p)).expiresAt = 0 ∨
         t ≤ (s.consents (u, v, p)).expiresAt))) ∧
    ((grantConsent s sender now u v p dc al (now + 1)).isOk = true ∧
     isConsentValid (okState (grantConsent s sender now u v p dc al (now + 1)))
       (now + 1) u v p = true ∧
     (∀ t, now + 1 < t →
        isConsentValid (okState (grantConsent s sender now u v p dc al (now + 1)))
          t u v p = false)) ∧
    (∀ e, e ≠ 0 → e < now → (grantConsent s sender now u v p dc al e).isOk = true) := by
  obtain ⟨hok, hreg, hrev, hexp⟩ :=
    grantConsent_fields s sender now u v p dc al (now + 1) hu hv hp hwf
  refine ⟨fun t => isConsentValid_iff s t u v p, ⟨hok, ?_, fun t ht => ?_⟩,
    fun e he hlt => ?_⟩
  · exact (isConsentValid_iff _ (now + 1) u v p).mpr ⟨hreg, hrev, Or.inr (le_of_eq hexp.symm)⟩
  · have hnot : ¬(isConsentValid (okState (grantConsent s sender now u v p dc al (now + 1)))
        t u v p = true) := by
      rw [isConsentValid_iff]
      rintro ⟨-, -, hcase⟩
      rw [hexp] at hcase
      omega
    simpa using hnot
  · exact (grantConsent_fields s sender now u v p dc al e hu hv hp hwf).1

/-- Witness for C5 on the concrete revoked-then-queried consent state:
the validity characterisation at time 5, the `now + 1` expiry boundary
(valid at 201, invalid at 202 for a grant issued at 200), and acceptance
of an already-expired `expiresAt = 7`. -/
theorem C5_consent_validity_witness :
    (isConsentValid consentS2 5 "did:alice" "did:bob" "research" = true ↔
       ((consentS2.consents ("did:alice", "did:bob", "research")).isRegistered = true ∧
        (consentS2.consents ("did:alice", "did:bob", "research")).isRevoked = false ∧
        ((consentS2.consents ("did:alice", "did:bob", "research")).expiresAt = 0 ∨
         5 ≤ (consentS2.consents ("did:alice", "did:bob", "research")).expiresAt))) ∧
    isConsentValid (okState (grantConsent consentS2 4 200 "did:alice" "did:bob"
      "research" "email" AccessLevel.readOnly 201)) 201 "did:alice" "did:bob" "research" = true ∧
    isConsentValid (okState (grantConsent consentS2 4 200 "did:alice" "did:bob"
      "research" "email" AccessLevel.readOnly 201)) 202 "did:alice" "did:bob" "research" = false ∧
    (grantConsent consentS2 4 200 "did:alice" "did:bob" "research" "email"
      AccessLevel.readOnly 7).isOk = true :=
  ⟨(C5_consent_validity consentS2 4 200 "did:alice" "did:bob" "research" "email"
      AccessLevel.readOnly (by decide) (by decide) (by decide) (by decide)).1 5,
   (C5_consent_validity consentS2 4 200 "did:alice" "did:bob" "research" "email"
      AccessLevel.readOnly (by decide) (by decide) (by decide) (by decide)).2.1.2.1,
   (C5_consent_validity consentS2 4 200 "did:alice" "did:bob" "research" "email"
      AccessLevel.readOnly (by decide) (by decide) (by decide) (by decide)).2.1.2.2
      202 (by decide),
   (C5_consent_validity consentS2 4 200 "did:alice" "did:bob" "research" "email"
      AccessLevel.readOnly (by decide) (by decide) (by decide) (by decide)).2.2
      7 (by decide) (by decide)⟩

/-! ### Claim C10 -/

/-- Flipping a bit inside the string changes it. -/
theorem flipBit_ne (l : List Bool) (i : Nat) (hi : i < l.length) :
    flipBit l i ≠ l := by
  intro heq
  have hget := congrArg (fun t => t[i]?) heq
  simp only [flipBit, List.getElem?_set_self hi] at hget
  rw [List.getElem?_eq_getElem hi] at hget
  simp only [List.getD, List.get?_eq_getElem?, List.getElem?_eq_getElem hi] at hget
  simp at hget

/-- Claim C10 (spec-modelled crypto): signing verifies, flipping any
single bit of the message or of the signature breaks verification, and
KEM decapsulation of an encapsulated ciphertext recovers the identical
shared secret. -/
theorem C10_crypto_roundtrip (seed : Nat) (m : List Bool) (r : Nat) :
    verify (generateKeypair seed).2 m (sign (generateKeypair seed).1 m) = true ∧
    (∀ i, i < m.length →
       verify (generateKeypair seed).2 (flipBit m i) (sign (generateKeypair seed).1 m) = false) ∧
    (∀ i, i < (sign (generateKeypair seed).1 m).length →
       verify (generateKeypair seed).2 m (flipBit (sign (generateKeypair seed).1 m) i) = false) ∧
    decapsulate (generateKeypair seed).1 (encapsulate (generateKeypair seed).2 r).2 =
      (encapsulate (generateKeypair seed).2 r).1 := by
  refine ⟨?_, fun i hi => ?_, fun i hi => ?_, rfl⟩
  · simp [verify, sign, generateKeypair]
  · have hne := flipBit_ne m i hi
    simp only [verify, sign, generateKeypair, beq_eq_false_iff_ne, ne_eq]
    intro heq
    exact hne (List.append_cancel_left heq.symm)
  · have hne := flipBit_ne (sign (generateKeypair seed).1 m) i hi
    simp only [verify, beq_eq_false_iff_ne, ne_eq]
    intro heq
    exact hne (by simpa [sign, generateKeypair] using heq)

/-- Witness for C10 at seed 5, message [true, false, true], randomness 9,
flipping message bit 1 and signature bit 0. -/
theorem C10_crypto_roundtrip_witness :
    verify (generateKeypair 5).2 [true, false, true] (sign (generateKeypair 5).1 [true, false, true]) = true ∧
    verify (generateKeypair 5).2 (flipBit [true, false, true] 1) (sign (generateKeypair 5).1 [true, false, true]) = false ∧
    verify (generateKeypair 5).2 [true, false, true] (flipBit (sign (generateKeypair 5).1 [true, false, true]) 0) = false ∧
    decapsulate (generateKeypair 5).1 (encapsulate (generateKeypair 5).2 9).2 =
      (encapsulate (generateKeypair 5).2 9).1 :=
  ⟨(C10_crypto_roundtrip 5 [true, false, true] 9).1,
   (C10_crypto_roundtrip 5 [true, false, true] 9).2.1 1 (by decide),
   (C10_crypto_roundtrip 5 [true, false, true] 9).2.2.1 0 (by decide),
   (C10_crypto_roundtrip 5 [true, false, true] 9).2.2.2⟩

/-! ### Claim C8 -/

/-- Claim C8: `grantRole` and `revokeRole` are callable only by a
Verifier-role identity; when the requested membership already has the
requested value the call succeeds without changing any state or emitting
any event, and otherwise it sets the membership and emits exactly one
event. -/
theorem C8_role_idempotence (s : RegistryState) (sender : Address) (role : RoleId)
    (account : Address) :
    (hasRole s VERIFIER_ROLE sender = false →
       grantRole s sender role account = .error .missingRole ∧
       revokeRole s sender role account = .error .missingRole) ∧
    (hasRole s VERIFIER_ROLE sender = true →
       (hasRole s role account = true →
          grantRole s sender role account = .ok s ∧
          revokeRole s sender role account =
            .ok { s with roles := grantRoleInternal.setMap2 s.roles role account false,
                         events := Event.roleRevoked role account sender :: s.events } ∧
          hasRole (okState (revokeRole s sender role account)) role account = false) ∧
       (hasRole s role account = false →
          grantRole s sender role account =
            .ok { s with roles := grantRoleInternal.setMap2 s.roles role account true,
                         events := Event.roleGranted role account sender :: s.events } ∧
          hasRole (okState (grantRole s sender role account)) role account = true ∧
          revokeRole s sender role account = .ok s)) := by
  refine ⟨fun hnv => ?_, fun hv => ⟨fun hmem => ?_, fun hmem => ?_⟩⟩
  · simp only [hasRole] at hnv
    constructor <;> simp [grantRole, revokeRole, hasRole, hnv]
  · simp only [hasRole] at hv hmem
    refine ⟨?_, ?_, ?_⟩ <;>
      simp [grantRole, revokeRole, grantRoleInternal, revokeRoleInternal,
        grantRoleInternal.setMap2, hasRole, okState, Except.toOption, hv, hmem]
  · simp only [hasRole] at hv hmem
    refine ⟨?_, ?_, ?_⟩ <;>
      simp [grantRole, revokeRole, grantRoleInternal, revokeRoleInternal,
        grantRoleInternal.setMap2, hasRole, okState, Except.toOption, hv, hmem]

/-- Witness for C8: a no-op grant (account 2 already a Verifier) returns
the demo state unchanged, a fresh grant makes account 7 an Issuer, a
no-op revoke on a non-member also returns the state unchanged, and a
non-Verifier caller is rejected. -/
theorem C8_role_idempotence_witness :
    grantRole demoState 9 VERIFIER_ROLE 2 = .ok demoState ∧
    hasRole (okState (grantRole demoState 9 ISSUER_ROLE 7)) ISSUER_ROLE 7 = true ∧
    revokeRole demoState 9 ISSUER_ROLE 7 = .ok demoState ∧
    grantRole demoState 4 ISSUER_ROLE 7 = .error .missingRole :=
  ⟨((C8_role_idempotence demoState 9 VERIFIER_ROLE 2).2 (by decide)).1 (by decide) |>.1,
   (((C8_role_idempotence demoState 9 ISSUER_ROLE 7).2 (by decide)).2 (by decide)).2.1,
   (((C8_role_idempotence demoState 9 ISSUER_ROLE 7).2 (by decide)).2 (by decide)).2.2,
   ((C8_role_idempotence demoState 4 ISSUER_ROLE 7).1 (by decide)).1⟩

/-! ### Claim C7 -/

/-- Claim C7: after `createRegistry`, the caller owns the new facade but
the Verifier role inside it is held by the factory (its deployer), not by
the caller; the fresh owner holds neither the Verifier nor the Issuer
role, so every Verifier-gated entry point (`grantRole`, `addIssuer`,
`addVerifier`) and every Issuer-gated write rejects it, until a Verifier
(the factory address) grants it a role. -/
theorem C7_factory_ownership (factoryAddr caller : Address) (name description : String)
    (s : RegistryState)
    (hne : caller ≠ factoryAddr)
    (h : createRegistry factoryAddr caller name description = .ok s) :
    s.owner = caller ∧
    hasRole s VERIFIER_ROLE factoryAddr = true ∧
    hasRole s VERIFIER_ROLE caller = false ∧
    hasRole s ISSUER_ROLE caller = false ∧
    (∀ role account, grantRole s caller role account = .error .missingRole) ∧
    (∀ account, addIssuer s caller account = .error .missingRole) ∧
    (∀ account, addVerifier s caller account = .error .missingRole) ∧
    (∀ now did credentialHash metadataURI,
       registerCredential s caller now did credentialHash metadataURI = .error .missingRole) ∧
    (∀ now schemaId schemaURI,
       registerSchema s caller now schemaId schemaURI = .error .missingRole) ∧
    ((addIssuer s factoryAddr caller).isOk = true ∧
     hasRole (okState (addIssuer s factoryAddr caller)) ISSUER_ROLE caller = true) := by
  simp only [createRegistry] at h
  obtain ⟨-, -, rfl⟩ := transferOwnership_ok h
  have hvf : hasRole (initialState factoryAddr name description) VERIFIER_ROLE factoryAddr = true := by
    simp [initialState, grantRoleInternal, grantRoleInternal.setMap2, hasRole]
  have hvc : hasRole (initialState factoryAddr name description) VERIFIER_ROLE caller = false := by
    simp [initialState, grantRoleInternal, grantRoleInternal.setMap2, hasRole, hne]
  have hic : hasRole (initialState factoryAddr name description) ISSUER_ROLE caller = false := by
    simp [initialState, grantRoleInternal, grantRoleInternal.setMap2, hasRole,
      ISSUER_ROLE, VERIFIER_ROLE]
  refine ⟨rfl, ?_, ?_, ?_, ?_, ?_, ?_, ?_, ?_, ?_, ?_⟩
  · simpa [hasRole] using hvf
  · simpa [hasRole] using hvc
  · simpa [hasRole] using hic
  · intro role account
    simp only [hasRole] at hvc
    simp [grantRole, hasRole, hvc]
  · intro account
    simp only [hasRole] at hvc
    simp [addIssuer, hasRole, hvc]
  · intro account
    simp only [hasRole] at hvc
    simp [addVerifier, hasRole, hvc]
  · intro now did credentialHash metadataURI
    simp only [hasRole] at hic
    simp [registerCredential, hasRole, hic]
  · intro now schemaId schemaURI
    simp only [hasRole] at hic
    simp [registerSchema, hasRole, hic]
  · simp only [hasRole] at hvf hic
    simp [addIssuer, grantRole, grantRoleInternal, grantRoleInternal.setMap2,
      hasRole, hvf, hic, Except.isOk, Except.toBool]
  · simp only [hasRole] at hvf hic
    simp [addIssuer, grantRole, grantRoleInternal, grantRoleInternal.setMap2,
      hasRole, okState, Except.toOption, hvf, hic]

def c7State : RegistryState :=
  okState (createRegistry 100 7 "tenant" "registry of tenant 7")

/-- Witness for C7: the factory at address 100 creates a registry for
caller 7, which owns it but holds no role, while the factory holds the
Verifier role and can unblock the owner by granting it the Issuer role. -/
theorem C7_factory_ownership_witness :
    c7State.owner = 7 ∧
    hasRole c7State VERIFIER_ROLE 100 = true ∧
    hasRole c7State VERIFIER_ROLE 7 = false ∧
    hasRole c7State ISSUER_ROLE 7 = false ∧
    addIssuer c7State 7 7 = .error .missingRole ∧
    registerCredential c7State 7 50 "did:x" "h" "u" = .error .missingRole ∧
    hasRole (okState (addIssuer c7State 100 7)) ISSUER_ROLE 7 = true :=
  ⟨(C7_factory_ownership 100 7 "tenant" "registry of tenant 7" c7State (by decide) rfl).1,
   (C7_factory_ownership 100 7 "tenant" "registry of tenant 7" c7State (by decide) rfl).2.1,
   (C7_factory_ownership 100 7 "tenant" "registry of tenant 7" c7State (by decide) rfl).2.2.1,
   (C7_factory_ownership 100 7 "tenant" "registry of tenant 7" c7State (by decide) rfl).2.2.2.1,
   (C7_factory_ownership 100 7 "tenant" "registry of tenant 7" c7State (by decide) rfl).2.2.2.2.2.1 7,
   (C7_factory_ownership 100 7 "tenant" "registry of tenant 7" c7State (by decide) rfl).2.2.2.2.2.2.2.1 50 "did:x" "h" "u",
   (C7_factory_ownership 100 7 "tenant" "registry of tenant 7" c7State (by decide) rfl).2.2.2.2.2.2.2.2.2.2⟩

/-! ### Claim C6 -/

/-- A sequence of `registerSchema` calls on one schema id, each supplied
as (sender, timestamp, URI); the sequence fails as soon as one call
reverts. -/
def registerSchemaAll (schemaId : String) :
    RegistryState → List (Address × Nat × String) → Except LedgerError RegistryState
  | s, [] => .ok s
  | s, c :: rest =>
      match registerSchema s c.1 c.2.1 schemaId c.2.2 with
      | .ok s' => registerSchemaAll schemaId s' rest
      | .error e => .error e

/-- A successful `registerSchema` on an already-registered id takes the
update path: the version is bumped by exactly one and the URI replaced. -/
theorem registerSchema_update {s s' : RegistryState} {sender : Address} {now : Nat}
    {schemaId schemaURI : String}
    (hreg : (s.schemas schemaId).isRegistered = true)
    (h : registerSchema s sender now schemaId schemaURI = .ok s') :
    (s'.schemas schemaId).isRegistered = true ∧
    (s'.schemas schemaId).version = (s.schemas schemaId).version + 1 ∧
    (s'.schemas schemaId).schemaURI = schemaURI := by
  simp only [registerSchema, _updateSchema] at h
  split_ifs at h with h1 h2 h3 h4
  injection h with h
  subst h
  simp [setMap, hreg]

/-- A successful `registerSchema` on a fresh id creates the record at
version 1 with the supplied URI. -/
theorem registerSchema_create {s s' : RegistryState} {sender : Address} {now : Nat}
    {schemaId schemaURI : String}
    (hreg : (s.schemas schemaId).isRegistered = false)
    (h : registerSchema s sender now schemaId schemaURI = .ok s') :
    (s'.schemas schemaId).isRegistered = true ∧
    (s'.schemas schemaId).version = 1 ∧
    (s'.schemas schemaId).schemaURI = schemaURI := by
  simp only [registerSchema, _updateSchema, hreg, Bool.false_eq_true, if_false] at h
  split_ifs at h with h1 h2 h3
  injection h with h
  subst h
  simp [setMap]

/-- Over a registered id, `n` further successful register calls add `n`
to the version and leave the URI of the most recent call. -/
theorem registerSchemaAll_version (schemaId : String) (calls : List (Address × Nat × String)) :
    ∀ s s' : RegistryState, (s.schemas schemaId).isRegistered = true →
      registerSchemaAll schemaId s calls = .ok s' →
      (s'.schemas schemaId).isRegistered = true ∧
      (s'.schemas schemaId).version = (s.schemas schemaId).version + calls.length ∧
      (s'.schemas schemaId).schemaURI =
        (calls.map (fun c => c.2.2)).getLastD (s.schemas schemaId).schemaURI := by
  induction calls with
  | nil =>
      intro s s' hreg h
      simp only [registerSchemaAll] at h
      injection h with h
      subst h
      simp [hreg]
  | cons c rest ih =>
      intro s s' hreg h
      simp only [registerSchemaAll] at h
      rcases hc : registerSchema s c.1 c.2.1 schemaId c.2.2 with e | s1
      · rw [hc] at h; cases h
      · rw [hc] at h
        obtain ⟨hreg1, hver1, huri1⟩ := registerSchema_update hreg hc
        obtain ⟨hregF, hverF, huriF⟩ := ih s1 s' hreg1 h
        refine ⟨hregF, ?_, ?_⟩
        · rw [hverF, hver1, List.length_cons]
          omega
        · rw [huriF, huri1, List.map_cons, List.getLastD_cons]

/-- Claim C6: schema registration is idempotent-with-versioning.  From a
state where the id is unregistered (version 0), `n` successful register
calls leave `version = n` and `getSchemaURI` returns the URI of the most
recent call; the first call creates the record at version 1 and every
later call bumps the version by exactly 1. -/
theorem C6_schema_versioning (s0 s' : RegistryState) (schemaId : String)
    (calls : List (Address × Nat × String))
    (h0 : (s0.schemas schemaId).isRegistered = false)
    (h0ver : (s0.schemas schemaId).version = 0)
    (h : registerSchemaAll schemaId s0 calls = .ok s') :
    ((s'.schemas schemaId).version = calls.length ∧
     (calls ≠ [] → getSchemaURI s' schemaId =
        .ok ((calls.map (fun c => c.2.2)).getLastD ""))) ∧
    (∀ sender now uri s1, registerSchema s0 sender now schemaId uri = .ok s1 →
       (s1.schemas schemaId).version = 1) ∧
    (∀ t t' sender now uri, (t.schemas schemaId).isRegistered = true →
       registerSchema t sender now schemaId uri = .ok t' →
       (t'.schemas schemaId).version = (t.schemas schemaId).version + 1) := by
  refine ⟨?_, fun sender now uri s1 h1 => (registerSchema_create h0 h1).2.1,
    fun t t' sender now uri hregt ht => (registerSchema_update hregt ht).2.1⟩
  rcases calls with _ | ⟨c, rest⟩
  · simp only [registerSchemaAll] at h
    injection h with h
    subst h
    exact ⟨by simpa using h0ver, fun hne => absurd rfl hne⟩
  · simp only [registerSchemaAll] at h
    rcases hc : registerSchema s0 c.1 c.2.1 schemaId c.2.2 with e | s1
    · rw [hc] at h; cases h
    · rw [hc] at h
      obtain ⟨hreg1, hver1, huri1⟩ := registerSchema_create h0 hc
      obtain ⟨hregF, hverF, huriF⟩ := registerSchemaAll_version schemaId rest s1 s' hreg1 h
      refine ⟨?_, fun hne => ?_⟩
      · rw [hverF, hver1, List.length_cons]
        omega
      · rw [getSchemaURI]
        simp only [hregF, Bool.not_true, Bool.false_eq_true, if_false]
        rw [huriF, huri1, List.map_cons, List.getLastD_cons]

def c6Calls : List (Address × Nat × String) :=
  [(1, 20, "uriA"), (1, 21, "uriB"), (1, 22, "uriC")]

def c6State : RegistryState :=
  okState (registerSchemaAll "schema:doc" demoState c6Calls)

/-- Witness for C6: three successful registrations of "schema:doc" by the
issuer leave version 3 and the URI of the last call. -/
theorem C6_schema_versioning_witness :
    (c6State.schemas "schema:doc").version = 3 ∧
    getSchemaURI c6State "schema:doc" = .ok "uriC" :=
  ⟨(C6_schema_versioning demoState c6State "schema:doc" c6Calls (by decide) (by decide)
      rfl).1.1,
   (C6_schema_versioning demoState c6State "schema:doc" c6Calls (by decide) (by decide)
      rfl).1.2 (by decide)⟩
